import Mathlib

/-!
Shallow embedding of selected parts of the `donut_examples` repository
(NVIDIA Donut example applications), together with proofs about them.

Conventions used throughout:
* C++ `std::vector` contents become Lean `List`s.
* Machine integers become `Nat` with explicit `% 2^16` where a value is
  stored in, or cast to, `uint16_t` (helper `U16` below).
* Float-valued vertex/color/transform data is irrelevant to the properties
  proved here (which concern counts, index values, ordering, and control
  flow); a float value computed from `k` consecutive `rand()` draws is
  represented by the list of those raw draws, so the data dependency on the
  random stream is preserved exactly while float evaluation (which is not
  statable) is abstracted away.
* The C library random generator is modelled as an explicit hidden state
  (`Nat`) threaded through a state monad, with the transition function
  `next : Nat -> Nat × Nat` (returned value, new state) as a parameter;
  `srand(seed)` replaces the hidden state by `seed`.
-/

namespace WorkGraphs

/-- `examples/work_graphs/scene.cpp`: mesh density constants. -/
def SceneParam_BoxSubdivisions : Nat := 100

def SceneParam_SphereSides : Nat := 100

def SceneParam_SphereSlices : Nat := 50

/-- Conversion of a nonnegative value to `uint16_t` (value modulo 2^16). -/
def U16 (n : Nat) : Nat := n % 65536

/-- `examples/work_graphs/scene.cpp` `struct MESH_DATA`.
`positions` and `normals` hold `float3` data, which the claims treated here
never inspect; only their lengths matter, so the embedding tracks the two
lengths (`npos`, `nnrm`).  `indices` is the `std::vector<uint16_t>` of
16-bit indices, kept exactly (as the stored values in `[0, 2^16)`). -/
structure MESH_DATA where
  npos : Nat
  nnrm : Nat
  indices : List Nat
deriving Repr, DecidableEq

/-- The empty `MESH_DATA` (default-constructed vectors). -/
def emptyMesh : MESH_DATA := { npos := 0, nnrm := 0, indices := [] }

/-- The six indices appended by `GeneratePlaneInternal` for a quad based at
`baseVtx` (each stored as `uint16_t`). -/
def planeQuadIndices (baseVtx : Nat) : List Nat :=
  [U16 (baseVtx + 0), U16 (baseVtx + 1), U16 (baseVtx + 2),
   U16 (baseVtx + 2), U16 (baseVtx + 3), U16 (baseVtx + 0)]

/-- `GeneratePlaneInternal(y, sign, outMesh)`: appends 4 positions, 4
normals and 6 indices.  The parameters `y` and `sign` only affect the float
vertex data and so do not appear. -/
def GeneratePlaneInternal (m : MESH_DATA) : MESH_DATA :=
  let baseVtx := U16 m.npos
  { npos := m.npos + 4
    nnrm := m.nnrm + 4
    indices := m.indices ++ planeQuadIndices baseVtx }

/-- `GeneratePlane`: two internal planes (top facing and bottom facing). -/
def GeneratePlane (m : MESH_DATA) : MESH_DATA :=
  GeneratePlaneInternal (GeneratePlaneInternal m)

/-- The indices appended by the `GenerateSide` lambda inside `GenerateBox`
for subdivision count `n`, based at `baseVtx`: for each cell `(y, x)` of
the `n × n` grid, two triangles (six indices). -/
def boxSideIndices (n baseVtx : Nat) : List Nat :=
  (List.range n).flatMap fun y =>
    (List.range n).flatMap fun x =>
      let faceBaseVtx := U16 (baseVtx + y * (n + 1) + x)
      [U16 (faceBaseVtx + 0), U16 (faceBaseVtx + (n + 1) + 0), U16 (faceBaseVtx + (n + 1) + 1),
       U16 (faceBaseVtx + (n + 1) + 1), U16 (faceBaseVtx + 1), U16 (faceBaseVtx + 0)]

/-- The `GenerateSide` lambda inside `GenerateBox`: appends an
`(n+1) × (n+1)` grid of vertices (positions and normals) and `6 n²`
indices.  The `coord0/coord1/posInit/nrm/sign` parameters only affect the
float vertex data. -/
def GenerateSide (n : Nat) (m : MESH_DATA) : MESH_DATA :=
  let baseVtx := U16 m.npos
  { npos := m.npos + (n + 1) * (n + 1)
    nnrm := m.nnrm + (n + 1) * (n + 1)
    indices := m.indices ++ boxSideIndices n baseVtx }

/-- `GenerateBox(faceSubdivisions, outMesh)`: four subdivided sides
(front, right, back, left) followed by a top and a bottom plane.  The
`reserve` calls in the source only affect capacity, not contents. -/
def GenerateBox (n : Nat) (m : MESH_DATA) : MESH_DATA :=
  GeneratePlaneInternal (GeneratePlaneInternal
    (GenerateSide n (GenerateSide n (GenerateSide n (GenerateSide n m)))))

/-- Bottom-cap indices of `GenerateSphere`. -/
def sphereBottomCapIndices (sides baseVtx : Nat) : List Nat :=
  (List.range sides).flatMap fun i =>
    [U16 (baseVtx + 0), U16 (baseVtx + 1 + i), U16 (baseVtx + 1 + (i + 1) % sides)]

/-- Trunk indices of `GenerateSphere` (`slices - 2` bands of quads). -/
def sphereTrunkIndices (sides slices baseVtx : Nat) : List Nat :=
  (List.range (slices - 2)).flatMap fun y =>
    let sliceBaseVtx := U16 (baseVtx + 1 + y * sides)
    (List.range sides).flatMap fun x =>
      [U16 (sliceBaseVtx + x + 0), U16 (sliceBaseVtx + x + 0 + sides),
       U16 (sliceBaseVtx + (x + 1) % sides + sides),
       U16 (sliceBaseVtx + (x + 1) % sides + sides),
       U16 (sliceBaseVtx + (x + 1) % sides), U16 (sliceBaseVtx + x + 0)]

/-- Top-cap indices of `GenerateSphere`. -/
def sphereTopCapIndices (sides slices baseVtx capVtx : Nat) : List Nat :=
  let capBaseVtx := U16 (baseVtx + 1 + (slices - 2) * sides)
  (List.range sides).flatMap fun i =>
    [U16 (capBaseVtx + i), capVtx, U16 (capBaseVtx + (i + 1) % sides)]

/-- `GenerateSphere(sides, slices, outMesh)`: one bottom vertex,
`slices - 1` rings of `sides` trunk vertices, one top vertex; then the
bottom cap, the trunk quads and the top cap.  (The source asserts
`sides >= 3`, `slices >= 2` and `positions.size() < 0xFFFF`.) -/
def GenerateSphere (sides slices : Nat) (m : MESH_DATA) : MESH_DATA :=
  let baseVtx := U16 m.npos
  let nposTrunk := m.npos + 1 + (slices - 1) * sides
  let capVtx := U16 nposTrunk
  { npos := nposTrunk + 1
    nnrm := m.nnrm + 1 + (slices - 1) * sides + 1
    indices := m.indices
      ++ sphereBottomCapIndices sides baseVtx
      ++ sphereTrunkIndices sides slices baseVtx
      ++ sphereTopCapIndices sides slices baseVtx capVtx }



/-- Length of a `flatMap` whose pieces all have the same length. -/
theorem length_flatMap_const {α β : Type} (l : List α) (f : α → List β) (c : Nat)
    (h : ∀ a ∈ l, (f a).length = c) : (l.flatMap f).length = l.length * c := by
  induction l with
  | nil => simp
  | cons a t ih =>
      rw [List.flatMap_cons, List.length_append, h a (by simp),
        ih (fun b hb => h b (by simp [hb])), List.length_cons, Nat.succ_mul]
      omega

theorem planeQuadIndices_length (b : Nat) : (planeQuadIndices b).length = 6 := rfl

theorem boxSideIndices_length (n b : Nat) : (boxSideIndices n b).length = 6 * n ^ 2 := by
  rw [boxSideIndices, length_flatMap_const _ _ (n * 6), List.length_range]
  · ring
  · intro y _
    rw [length_flatMap_const _ _ 6, List.length_range]
    intro x _
    rfl

theorem sphereBottomCapIndices_length (s b : Nat) :
    (sphereBottomCapIndices s b).length = 3 * s := by
  rw [sphereBottomCapIndices, length_flatMap_const _ _ 3, List.length_range]
  · ring
  · intro i _
    rfl

theorem sphereTrunkIndices_length (s l b : Nat) :
    (sphereTrunkIndices s l b).length = (l - 2) * (6 * s) := by
  rw [sphereTrunkIndices, length_flatMap_const _ _ (s * 6), List.length_range]
  · ring
  · intro y _
    rw [length_flatMap_const _ _ 6, List.length_range]
    intro x _
    rfl

theorem sphereTopCapIndices_length (s l b c : Nat) :
    (sphereTopCapIndices s l b c).length = 3 * s := by
  rw [sphereTopCapIndices, length_flatMap_const _ _ 3, List.length_range]
  · ring
  · intro i _
    rfl

/-- C2: the three geometry generators append fixed, parameter-determined
amounts of vertex and index data to any starting mesh: `GeneratePlane`
appends 8 vertices (positions and normals) and 12 indices; `GenerateBox`
with face subdivision `n` appends `4 (n+1)² + 8` vertices and `24 n² + 12`
indices; `GenerateSphere` with `s ≥ 3` sides and `l ≥ 2` slices appends
`s (l-1) + 2` vertices and `6 s (l-1)` indices. -/
theorem generators_append_counts (m : MESH_DATA) (n s l : Nat)
    (hs : 3 ≤ s) (hl : 2 ≤ l) :
    ((GeneratePlane m).npos = m.npos + 8 ∧
     (GeneratePlane m).nnrm = m.nnrm + 8 ∧
     (GeneratePlane m).indices.length = m.indices.length + 12) ∧
    ((GenerateBox n m).npos = m.npos + (4 * (n + 1) ^ 2 + 8) ∧
     (GenerateBox n m).nnrm = m.nnrm + (4 * (n + 1) ^ 2 + 8) ∧
     (GenerateBox n m).indices.length = m.indices.length + (24 * n ^ 2 + 12)) ∧
    ((GenerateSphere s l m).npos = m.npos + (s * (l - 1) + 2) ∧
     (GenerateSphere s l m).nnrm = m.nnrm + (s * (l - 1) + 2) ∧
     (GenerateSphere s l m).indices.length = m.indices.length + 6 * s * (l - 1)) := by
  obtain ⟨k, rfl⟩ : ∃ k, l = k + 2 := ⟨l - 2, by omega⟩
  refine ⟨⟨rfl, rfl, ?_⟩, ⟨?_, ?_, ?_⟩, ⟨?_, ?_, ?_⟩⟩
  · simp [GeneratePlane, GeneratePlaneInternal, planeQuadIndices]
  · simp [GenerateBox, GenerateSide, GeneratePlaneInternal]
    ring
  · simp [GenerateBox, GenerateSide, GeneratePlaneInternal]
    ring
  · simp [GenerateBox, GenerateSide, GeneratePlaneInternal, planeQuadIndices,
      boxSideIndices_length]
    ring
  · simp [GenerateSphere]
    ring
  · simp [GenerateSphere]
    ring
  · simp [GenerateSphere, sphereBottomCapIndices_length, sphereTrunkIndices_length,
      sphereTopCapIndices_length]
    ring

/-- Closed witness for `generators_append_counts`. -/
theorem generators_append_counts_witness :
    3 ≤ 4 ∧ 2 ≤ 3 ∧
    (((GeneratePlane emptyMesh).npos = emptyMesh.npos + 8 ∧
      (GeneratePlane emptyMesh).nnrm = emptyMesh.nnrm + 8 ∧
      (GeneratePlane emptyMesh).indices.length = emptyMesh.indices.length + 12) ∧
     ((GenerateBox 2 emptyMesh).npos = emptyMesh.npos + (4 * (2 + 1) ^ 2 + 8) ∧
      (GenerateBox 2 emptyMesh).nnrm = emptyMesh.nnrm + (4 * (2 + 1) ^ 2 + 8) ∧
      (GenerateBox 2 emptyMesh).indices.length = emptyMesh.indices.length + (24 * 2 ^ 2 + 12)) ∧
     ((GenerateSphere 4 3 emptyMesh).npos = emptyMesh.npos + (4 * (3 - 1) + 2) ∧
      (GenerateSphere 4 3 emptyMesh).nnrm = emptyMesh.nnrm + (4 * (3 - 1) + 2) ∧
      (GenerateSphere 4 3 emptyMesh).indices.length = emptyMesh.indices.length + 6 * 4 * (3 - 1))) :=
  ⟨by decide, by decide, generators_append_counts emptyMesh 2 4 3 (by decide) (by decide)⟩


/-- Well-formedness of a mesh extension (claim C9's conclusion): position
and normal counts agree, and every index appended past the old index count
is strictly below the final vertex count. -/
def WellFormedAfter (m out : MESH_DATA) : Prop :=
  out.npos = out.nnrm ∧ ∀ i ∈ out.indices.drop m.indices.length, i < out.npos

theorem planeQuadIndices_lt (base : Nat) (h : base + 4 < 65535) :
    ∀ i ∈ planeQuadIndices (U16 base), i < base + 4 := by
  intro i hi
  fin_cases hi <;> simp [U16] <;> omega

theorem boxSideIndices_lt (n base : Nat) (h : base + (n + 1) * (n + 1) < 65535) :
    ∀ i ∈ boxSideIndices n (U16 base), i < base + (n + 1) * (n + 1) := by
  intro i hi
  simp only [boxSideIndices, List.mem_flatMap, List.mem_range] at hi
  obtain ⟨y, hy, x, hx, hi⟩ := hi
  have h1 : (y + 1) * (n + 1) ≤ n * (n + 1) := Nat.mul_le_mul_right _ (by omega)
  have h2 : n * (n + 1) + 1 * (n + 1) = (n + 1) * (n + 1) := by ring
  rw [Nat.add_mul] at h1
  fin_cases hi <;> simp [U16] <;> omega

theorem sphereBottomCapIndices_lt (s base : Nat) (hs : 1 ≤ s) (h : base + 1 + s < 65535) :
    ∀ i ∈ sphereBottomCapIndices s (U16 base), i < base + 1 + s := by
  intro i hi
  simp only [sphereBottomCapIndices, List.mem_flatMap, List.mem_range] at hi
  obtain ⟨j, hj, hi⟩ := hi
  have hm : (j + 1) % s < s := Nat.mod_lt _ (by omega)
  fin_cases hi <;> simp [U16] <;> omega

theorem sphereTrunkIndices_lt (s k base : Nat) (hs : 1 ≤ s)
    (h : base + 1 + (k + 1) * s < 65535) :
    ∀ i ∈ sphereTrunkIndices s (k + 2) (U16 base), i < base + 1 + (k + 1) * s := by
  intro i hi
  have e2 : k + 2 - 2 = k := rfl
  simp only [sphereTrunkIndices, e2, List.mem_flatMap, List.mem_range] at hi
  obtain ⟨y, hy, x, hx, hi⟩ := hi
  have h1 : (y + 2) * s ≤ (k + 1) * s := Nat.mul_le_mul_right _ (by omega)
  rw [Nat.add_mul] at h1
  have hm : (x + 1) % s < s := Nat.mod_lt _ (by omega)
  fin_cases hi <;> simp [U16] <;> omega

theorem sphereTopCapIndices_lt (s k base : Nat) (hs : 1 ≤ s)
    (h : base + 1 + (k + 1) * s + 1 < 65535) :
    ∀ i ∈ sphereTopCapIndices s (k + 2) (U16 base) (U16 (base + 1 + (k + 1) * s)),
      i < base + 1 + (k + 1) * s + 1 := by
  intro i hi
  have e2 : k + 2 - 2 = k := rfl
  simp only [sphereTopCapIndices, e2, List.mem_flatMap, List.mem_range] at hi
  obtain ⟨j, hj, hi⟩ := hi
  have h1 : (k + 1) * s = k * s + 1 * s := Nat.add_mul k 1 s
  have hm : (j + 1) % s < s := Nat.mod_lt _ (by omega)
  fin_cases hi <;> simp [U16] <;> omega

/-- C9: each geometry generator keeps positions and normals in lockstep and
appends only in-bounds indices: if the input mesh has equally many positions
and normals, and the vertex count after the call stays below `0xFFFF`, then
the output has equally many positions and normals and every appended 16-bit
index is strictly less than the final position count. -/
theorem generators_wellformed (m : MESH_DATA) (n s l : Nat)
    (hs : 3 ≤ s) (hl : 2 ≤ l) (heq : m.npos = m.nnrm) :
    ((GeneratePlane m).npos < 65535 → WellFormedAfter m (GeneratePlane m)) ∧
    ((GenerateBox n m).npos < 65535 → WellFormedAfter m (GenerateBox n m)) ∧
    ((GenerateSphere s l m).npos < 65535 → WellFormedAfter m (GenerateSphere s l m)) := by
  obtain ⟨k, rfl⟩ : ∃ k, l = k + 2 := ⟨l - 2, by omega⟩
  have e1 : k + 2 - 1 = k + 1 := rfl
  refine ⟨fun hb => ⟨?_, ?_⟩, fun hb => ⟨?_, ?_⟩, fun hb => ⟨?_, ?_⟩⟩
  · simp [GeneratePlane, GeneratePlaneInternal, heq]
  · simp only [GeneratePlane, GeneratePlaneInternal, List.append_assoc] at hb ⊢
    rw [List.drop_left]
    intro i hi
    rcases List.mem_append.mp hi with h1 | h1
    · have := planeQuadIndices_lt m.npos (by omega) i h1
      omega
    · have := planeQuadIndices_lt (m.npos + 4) (by omega) i h1
      omega
  · simp [GenerateBox, GenerateSide, GeneratePlaneInternal, heq]
  · simp only [GenerateBox, GenerateSide, GeneratePlaneInternal, List.append_assoc] at hb ⊢
    rw [List.drop_left]
    intro i hi
    simp only [List.mem_append] at hi
    rcases hi with h1 | h1 | h1 | h1 | h1 | h1
    · have := boxSideIndices_lt n m.npos (by omega) i h1
      omega
    · have := boxSideIndices_lt n (m.npos + (n + 1) * (n + 1)) (by omega) i h1
      omega
    · have := boxSideIndices_lt n (m.npos + (n + 1) * (n + 1) + (n + 1) * (n + 1))
        (by omega) i h1
      omega
    · have := boxSideIndices_lt n
        (m.npos + (n + 1) * (n + 1) + (n + 1) * (n + 1) + (n + 1) * (n + 1)) (by omega) i h1
      omega
    · have := planeQuadIndices_lt
        (m.npos + (n + 1) * (n + 1) + (n + 1) * (n + 1) + (n + 1) * (n + 1) + (n + 1) * (n + 1))
        (by omega) i h1
      omega
    · have := planeQuadIndices_lt
        (m.npos + (n + 1) * (n + 1) + (n + 1) * (n + 1) + (n + 1) * (n + 1) + (n + 1) * (n + 1)
          + 4) (by omega) i h1
      omega
  · simp [GenerateSphere, heq]
  · simp only [GenerateSphere, e1, List.append_assoc] at hb ⊢
    rw [List.drop_left]
    intro i hi
    have hss : s ≤ (k + 1) * s := Nat.le_mul_of_pos_left s (by omega)
    simp only [List.mem_append] at hi
    rcases hi with h1 | h1 | h1
    · have := sphereBottomCapIndices_lt s m.npos (by omega) (by omega) i h1
      omega
    · have := sphereTrunkIndices_lt s k m.npos (by omega) (by omega) i h1
      omega
    · have := sphereTopCapIndices_lt s k m.npos (by omega) (by omega) i h1
      omega

/-- Closed witness for `generators_wellformed`. -/
theorem generators_wellformed_witness :
    3 ≤ 3 ∧ 2 ≤ 2 ∧ emptyMesh.npos = emptyMesh.nnrm ∧
    (((GeneratePlane emptyMesh).npos < 65535 →
        WellFormedAfter emptyMesh (GeneratePlane emptyMesh)) ∧
     ((GenerateBox 1 emptyMesh).npos < 65535 →
        WellFormedAfter emptyMesh (GenerateBox 1 emptyMesh)) ∧
     ((GenerateSphere 3 2 emptyMesh).npos < 65535 →
        WellFormedAfter emptyMesh (GenerateSphere 3 2 emptyMesh))) :=
  ⟨by decide, by decide, rfl, generators_wellformed emptyMesh 1 3 2 (by decide) (by decide) rfl⟩


/-! ### Scene population (`Scene::PopulateWorld`)

The C library generator is an explicit hidden state: `next` is the `rand()`
transition (returned draw, new state); `srand(seed)` replaces the state by
`seed`.  Float values computed from draws are represented by the raw draws
(see the header comment), which preserves the data flow from the random
stream exactly.  All generators below are written in the state monad
`StateM Nat` over the hidden state. -/

/-- Scene population constants of `examples/work_graphs/scene.cpp`. -/
def SceneParam_MaterialCountOfEachType : Nat := 10

def SceneParam_Floors : Nat := 3

def SceneParam_LightsPerBall : Nat := 3

/-- `(int)(SceneParam_FloorSize / SceneParam_BallRoomSize)`: the float
quotient `500.0f / 120.0f ≈ 4.1667` truncates to 4; the operands are
exactly representable and the exact quotient 25/6 is far from an integer,
so the truncated float quotient equals the natural-number quotient. -/
def ballRoomCount1D : Nat := 500 / 120

/-- `(int)(SceneParam_FloorSize / SceneParam_ObjectRoomSize)`:
`500.0f / 50.0f = 10.0f` exactly. -/
def objectRoomCount1D : Nat := 500 / 50

/-- One `rand()` call. -/
def rand (next : Nat → Nat × Nat) : StateM Nat Nat := next

/-- Run a generator `n` times, collecting the results in call order
(models a `for` loop of `n` iterations pushing one element each). -/
def mrep {α : Type} (n : Nat) (g : StateM Nat α) : StateM Nat (List α) :=
  match n with
  | 0 => fun s => ([], s)
  | n + 1 => fun s =>
      let r := g s
      let rs := mrep n g r.2
      (r.1 :: rs.1, rs.2)

section Randomized

variable (next : Nat → Nat × Nat)

/-- `RandomPosXZ`: two `rand()` draws (x and z components); the `extents`
and `y` arguments shape only the resulting floats. -/
def RandomPosXZ : StateM Nat (List Nat) := fun s =>
  let a := rand next s
  let b := rand next a.2
  ([a.1, b.1], b.2)

/-- `RandomSize`: three `rand()` draws. -/
def RandomSize : StateM Nat (List Nat) := fun s =>
  let a := rand next s
  let b := rand next a.2
  let c := rand next b.2
  ([a.1, b.1, c.1], c.2)

/-- `RandomColor`: three `rand()` draws (the `normalized` flag only affects
the resulting floats). -/
def RandomColor : StateM Nat (List Nat) := fun s =>
  let a := rand next s
  let b := rand next a.2
  let c := rand next b.2
  ([a.1, b.1, c.1], c.2)

/-- `Random01`: one `rand()` draw. -/
def Random01 : StateM Nat Nat := rand next

/-- `RandomAngle`: one `rand()` draw. -/
def RandomAngle : StateM Nat Nat := rand next

end Randomized

/-- `MaterialType` of `examples/work_graphs/scene.h` (the variants used by
`PopulateWorld`). -/
inductive MaterialType
  | BT_Lambert
  | BT_Faceted
  | BT_Phong
  | BT_Metallic
  | BT_Velvet
  | BT_Flakes
  | BT_Stan
  | BT_Checker
deriving Repr, DecidableEq

/-- A scene material: its type tag plus the raw `rand()` draws behind its
float-valued fields, in call order. -/
structure Material where
  ty : MaterialType
  draws : List Nat
deriving Repr, DecidableEq

/-- `MeshType` (`MT_Plane`, `MT_Box`, `MT_Sphere`). -/
inductive MeshType
  | MT_Plane
  | MT_Box
  | MT_Sphere
deriving Repr, DecidableEq

/-- `AnimType` (`AT_Static`, `AT_RotateY`, `AT_Dance`). -/
inductive AnimType
  | AT_Static
  | AT_RotateY
  | AT_Dance
deriving Repr, DecidableEq

/-- A world-object `Instance`: the raw draws behind its float-valued
position/rotation/size fields plus the mesh type, material index and
animation type. -/
structure Instance where
  posDraws : List Nat
  rotDraws : List Nat
  sizeDraws : List Nat
  mesh : MeshType
  material : Nat
  anim : AnimType
deriving Repr, DecidableEq

/-- A `Light`: the raw draws behind its float-valued fields, in call
order (direction, length, two cone angles plus the outer-angle extra
draw, color). -/
structure Light where
  draws : List Nat
deriving Repr, DecidableEq

section Populate

variable (next : Nat → Nat × Nat)

/-- One lambert material (`RandomColor`). -/
def genLambert : StateM Nat Material := fun s =>
  let c := RandomColor next s
  (⟨MaterialType.BT_Lambert, c.1⟩, c.2)

/-- One phong material (`RandomColor`, `RandomColor`, `Random01`). -/
def genPhong : StateM Nat Material := fun s =>
  let base := RandomColor next s
  let spec := RandomColor next base.2
  let pow := Random01 next spec.2
  (⟨MaterialType.BT_Phong, base.1 ++ spec.1 ++ [pow.1]⟩, pow.2)

/-- One metallic material (`RandomColor`). -/
def genMetallic : StateM Nat Material := fun s =>
  let c := RandomColor next s
  (⟨MaterialType.BT_Metallic, c.1⟩, c.2)

/-- One velvet material (`RandomColor`, `Random01`). -/
def genVelvet : StateM Nat Material := fun s =>
  let base := RandomColor next s
  let rough := Random01 next base.2
  (⟨MaterialType.BT_Velvet, base.1 ++ [rough.1]⟩, rough.2)

/-- One flakes material (`RandomColor`, `RandomColor`, `Random01`,
`Random01`). -/
def genFlakes : StateM Nat Material := fun s =>
  let base := RandomColor next s
  let spec := RandomColor next base.2
  let pow := Random01 next spec.2
  let gran := Random01 next pow.2
  (⟨MaterialType.BT_Flakes, base.1 ++ spec.1 ++ [pow.1, gran.1]⟩, gran.2)

/-- One stan material (`RandomColor`, `RandomColor`, `Random01`,
`Random01`). -/
def genStan : StateM Nat Material := fun s =>
  let base := RandomColor next s
  let lines := RandomColor next base.2
  let thick := Random01 next lines.2
  let spacing := Random01 next thick.2
  (⟨MaterialType.BT_Stan, base.1 ++ lines.1 ++ [thick.1, spacing.1]⟩, spacing.2)

/-- One checkers material (`RandomColor`, `RandomColor`, `Random01`). -/
def genChecker : StateM Nat Material := fun s =>
  let base := RandomColor next s
  let base2 := RandomColor next base.2
  let pow := Random01 next base2.2
  (⟨MaterialType.BT_Checker, base.1 ++ base2.1 ++ [pow.1]⟩, pow.2)

/-- The material vector of `PopulateWorld`: the hard-coded ground lambert
(material 0) and faceted (material 1), followed by
`SceneParam_MaterialCountOfEachType` materials of each of the seven
randomized types, in source order. -/
def genMaterials : StateM Nat (List Material) := fun s =>
  let lamberts := mrep SceneParam_MaterialCountOfEachType (genLambert next) s
  let phongs := mrep SceneParam_MaterialCountOfEachType (genPhong next) lamberts.2
  let metallics := mrep SceneParam_MaterialCountOfEachType (genMetallic next) phongs.2
  let velvets := mrep SceneParam_MaterialCountOfEachType (genVelvet next) metallics.2
  let flakes := mrep SceneParam_MaterialCountOfEachType (genFlakes next) velvets.2
  let stans := mrep SceneParam_MaterialCountOfEachType (genStan next) flakes.2
  let checkers := mrep SceneParam_MaterialCountOfEachType (genChecker next) stans.2
  ([⟨MaterialType.BT_Lambert, []⟩, ⟨MaterialType.BT_Faceted, []⟩]
    ++ lamberts.1 ++ phongs.1 ++ metallics.1 ++ velvets.1 ++ flakes.1
    ++ stans.1 ++ checkers.1, checkers.2)

/-- One light hung from a ball: `RandomSize` (direction), `Random01`
(length), `RandomAngle` twice (the two cone angles), `RandomAngle`
(outer-angle extra), `RandomColor`. -/
def genLight : StateM Nat Light := fun s =>
  let dir := RandomSize next s
  let len := Random01 next dir.2
  let angle1 := RandomAngle next len.2
  let angle2 := RandomAngle next angle1.2
  let outerExtra := RandomAngle next angle2.2
  let color := RandomColor next outerExtra.2
  (⟨dir.1 ++ [len.1, angle1.1, angle2.1, outerExtra.1] ++ color.1⟩, color.2)

/-- One glitter ball (a sphere instance with material 1 rotating around Y)
together with its `SceneParam_LightsPerBall` lights. -/
def genBallAndLights : StateM Nat (Instance × List Light) := fun s =>
  let pos := RandomPosXZ next s
  let rot := RandomAngle next pos.2
  let lights := mrep SceneParam_LightsPerBall (genLight next) rot.2
  ((⟨pos.1, [rot.1], [], MeshType.MT_Sphere, 1, AnimType.AT_RotateY⟩, lights.1), lights.2)

/-- One dancing box: `RandomSize`, `RandomPosXZ`, the material draw
(`rand() % ((int)m_materials.size() - 2) + 2`, skipping the two hard-coded
materials), `RandomAngle`. -/
def genBox (materialCount : Nat) : StateM Nat Instance := fun s =>
  let size := RandomSize next s
  let pos := RandomPosXZ next size.2
  let m := rand next pos.2
  let rot := RandomAngle next m.2
  (⟨pos.1, [rot.1], size.1, MeshType.MT_Box, m.1 % (materialCount - 2) + 2,
    AnimType.AT_Dance⟩, rot.2)

/-- The ground-plane instance of one floor (material 0, static, no
draws). -/
def groundInstance : Instance :=
  ⟨[], [], [], MeshType.MT_Plane, 0, AnimType.AT_Static⟩

/-- One floor: the ground plane, a `ballRoomCount1D × ballRoomCount1D`
grid of glitter balls (with their lights), and an
`objectRoomCount1D × objectRoomCount1D` grid of dancing boxes.  The room
centers consume no draws, so the nested loops are modelled by nested
`mrep` in the source's row-major order. -/
def genFloor (materialCount : Nat) : StateM Nat (List Instance × List Light) := fun s =>
  let ballRows := mrep ballRoomCount1D (mrep ballRoomCount1D (genBallAndLights next)) s
  let boxRows :=
    mrep objectRoomCount1D (mrep objectRoomCount1D (genBox next materialCount)) ballRows.2
  let balls := ballRows.1.flatten
  ((groundInstance :: (balls.map Prod.fst ++ boxRows.1.flatten),
    (balls.map Prod.snd).flatten), boxRows.2)

/-- The scene contents produced by `PopulateWorld` (the three member
vectors it fills). -/
structure World where
  materials : List Material
  worldObjects : List Instance
  lights : List Light
deriving Repr, DecidableEq

/-- `Scene::PopulateWorld`, entered with RNG hidden state `s`: it first
executes `srand(0)` (replacing `s` by seed 0), then generates the
materials and the `SceneParam_Floors` floors (the box material draw reads
the materials count `m_materials.size()`, constant during the floor
loop). -/
def PopulateWorld (s : Nat) : World :=
  let s0 := 0
  let mats := genMaterials next s0
  let floors := mrep SceneParam_Floors (genFloor next mats.1.length) mats.2
  { materials := mats.1
    worldObjects := (floors.1.map Prod.fst).flatten
    lights := (floors.1.map Prod.snd).flatten }

end Populate


theorem mrep_length {α : Type} (n : Nat) (g : StateM Nat α) (s : Nat) :
    ((mrep n g) s).1.length = n := by
  induction n generalizing s with
  | zero => rfl
  | succ n ih => simp [mrep, ih]

theorem mrep_mem {α : Type} {x : α} (n : Nat) (g : StateM Nat α) (s : Nat)
    (h : x ∈ ((mrep n g) s).1) : ∃ s', x = (g s').1 := by
  induction n generalizing s with
  | zero => simp [mrep] at h
  | succ n ih =>
      simp only [mrep, List.mem_cons] at h
      rcases h with h | h
      · exact ⟨s, h⟩
      · exact ih _ h

theorem mrep_map_const {α β : Type} (n : Nat) (g : StateM Nat α) (f : α → β) (c : β)
    (h : ∀ s', f ((g s').1) = c) (s : Nat) :
    ((mrep n g) s).1.map f = List.replicate n c := by
  induction n generalizing s with
  | zero => rfl
  | succ n ih => simp [mrep, h, ih, List.replicate_succ]

theorem flatten_length_const {α : Type} (L : List (List α)) (c : Nat)
    (h : ∀ l ∈ L, l.length = c) : L.flatten.length = L.length * c := by
  induction L with
  | nil => simp
  | cons a t ih =>
      have ha := h a (by simp)
      have ht := ih (fun l hl => h l (by simp [hl]))
      simp only [List.flatten_cons, List.length_append, List.length_cons, ha, ht, Nat.succ_mul]
      omega

theorem map_eq_replicate_of {α β : Type} (l : List α) (f : α → β) (c : β)
    (h : ∀ x ∈ l, f x = c) : l.map f = List.replicate l.length c := by
  induction l with
  | nil => rfl
  | cons a t ih =>
      simp only [List.map_cons, List.length_cons, h a (by simp), List.replicate_succ,
        ih (fun x hx => h x (by simp [hx]))]

theorem mrep_mrep_flatten_length {α : Type} (n m : Nat) (g : StateM Nat α) (s : Nat) :
    ((mrep n (mrep m g)) s).1.flatten.length = n * m := by
  rw [flatten_length_const _ m, mrep_length]
  intro l hl
  obtain ⟨s', rfl⟩ := mrep_mem _ _ _ hl
  exact mrep_length _ _ _

theorem mrep_mrep_flatten_mem {α : Type} {x : α} (n m : Nat) (g : StateM Nat α) (s : Nat)
    (h : x ∈ ((mrep n (mrep m g)) s).1.flatten) : ∃ s', x = (g s').1 := by
  rw [List.mem_flatten] at h
  obtain ⟨row, hrow, hx⟩ := h
  obtain ⟨s1, rfl⟩ := mrep_mem _ _ _ hrow
  exact mrep_mem _ _ _ hx

theorem genMaterials_length (next : Nat → Nat × Nat) (s : Nat) :
    ((genMaterials next) s).1.length = 72 := by
  simp [genMaterials, mrep_length, SceneParam_MaterialCountOfEachType]

theorem genMaterials_types (next : Nat → Nat × Nat) (s : Nat) :
    ((genMaterials next) s).1.map Material.ty =
      [MaterialType.BT_Lambert, MaterialType.BT_Faceted]
      ++ List.replicate 10 MaterialType.BT_Lambert
      ++ List.replicate 10 MaterialType.BT_Phong
      ++ List.replicate 10 MaterialType.BT_Metallic
      ++ List.replicate 10 MaterialType.BT_Velvet
      ++ List.replicate 10 MaterialType.BT_Flakes
      ++ List.replicate 10 MaterialType.BT_Stan
      ++ List.replicate 10 MaterialType.BT_Checker := by
  simp only [genMaterials, SceneParam_MaterialCountOfEachType, List.map_append,
    mrep_map_const _ (genLambert next) Material.ty MaterialType.BT_Lambert (fun _ => rfl),
    mrep_map_const _ (genPhong next) Material.ty MaterialType.BT_Phong (fun _ => rfl),
    mrep_map_const _ (genMetallic next) Material.ty MaterialType.BT_Metallic (fun _ => rfl),
    mrep_map_const _ (genVelvet next) Material.ty MaterialType.BT_Velvet (fun _ => rfl),
    mrep_map_const _ (genFlakes next) Material.ty MaterialType.BT_Flakes (fun _ => rfl),
    mrep_map_const _ (genStan next) Material.ty MaterialType.BT_Stan (fun _ => rfl),
    mrep_map_const _ (genChecker next) Material.ty MaterialType.BT_Checker (fun _ => rfl)]
  rfl

theorem genFloor_fst_length (next : Nat → Nat × Nat) (mc s : Nat) :
    ((genFloor next mc) s).1.1.length = 117 := by
  simp only [genFloor, List.length_cons, List.length_append, List.length_map]
  rw [mrep_mrep_flatten_length, mrep_mrep_flatten_length]
  rfl

theorem genFloor_snd_length (next : Nat → Nat × Nat) (mc s : Nat) :
    ((genFloor next mc) s).1.2.length = 48 := by
  simp only [genFloor]
  rw [flatten_length_const _ 3 (by
    intro l hl
    rw [List.mem_map] at hl
    obtain ⟨pair, hpair, rfl⟩ := hl
    obtain ⟨s', rfl⟩ := mrep_mrep_flatten_mem _ _ _ _ hpair
    exact mrep_length _ _ _)]
  rw [List.length_map, mrep_mrep_flatten_length]
  rfl

theorem genFloor_fst_meshes (next : Nat → Nat × Nat) (mc s : Nat) :
    ((genFloor next mc) s).1.1.map Instance.mesh =
      MeshType.MT_Plane :: (List.replicate 16 MeshType.MT_Sphere
        ++ List.replicate 100 MeshType.MT_Box) := by
  simp only [genFloor, List.map_cons, List.map_append, List.map_map]
  rw [map_eq_replicate_of _ _ MeshType.MT_Sphere (by
    intro x hx
    obtain ⟨s', rfl⟩ := mrep_mrep_flatten_mem _ _ _ _ hx
    rfl)]
  rw [map_eq_replicate_of _ _ MeshType.MT_Box (by
    intro x hx
    obtain ⟨s', rfl⟩ := mrep_mrep_flatten_mem _ _ _ _ hx
    rfl)]
  rw [mrep_mrep_flatten_length, mrep_mrep_flatten_length]
  rfl

/-- Decomposition of the instances of one floor: each is the ground plane,
a glitter ball, or a dancing box. -/
theorem genFloor_fst_mem (next : Nat → Nat × Nat) (mc s : Nat) {inst : Instance}
    (h : inst ∈ ((genFloor next mc) s).1.1) :
    inst = groundInstance ∨ (∃ s', inst = (((genBallAndLights next) s').1).1) ∨
      (∃ s', inst = ((genBox next mc) s').1) := by
  simp only [genFloor, List.mem_cons, List.mem_append, List.mem_map] at h
  rcases h with h | ⟨pair, hpair, rfl⟩ | h
  · exact Or.inl h
  · obtain ⟨s', hp⟩ := mrep_mrep_flatten_mem _ _ _ _ hpair
    exact Or.inr (Or.inl ⟨s', by rw [hp]⟩)
  · exact Or.inr (Or.inr (mrep_mrep_flatten_mem _ _ _ _ h))

/-- Decomposition of the instances of `PopulateWorld`. -/
theorem PopulateWorld_instance_mem (next : Nat → Nat × Nat) (s : Nat) {inst : Instance}
    (h : inst ∈ (PopulateWorld next s).worldObjects) :
    inst = groundInstance ∨ (∃ s', inst = (((genBallAndLights next) s').1).1) ∨
      (∃ s', inst = ((genBox next 72) s').1) := by
  simp only [PopulateWorld, List.mem_flatten, List.mem_map] at h
  obtain ⟨row, ⟨pair, hpair, rfl⟩, hx⟩ := h
  obtain ⟨s', rfl⟩ := mrep_mem _ _ _ hpair
  rw [genMaterials_length] at hx
  exact genFloor_fst_mem next 72 s' hx

/-- C1: `Scene::PopulateWorld` populates the scene deterministically from
the fixed generation constants: exactly 72 materials (the hard-coded
ground lambert and faceted followed by 10 of each of the 7 randomized
types, in order), exactly 351 world-object instances (3 floors, each with
1 ground plane, 16 glitter-ball spheres — a 4 × 4 grid of 120-unit ball
rooms on a 500-unit floor — and 100 dancing boxes — a 10 × 10 grid of
50-unit object rooms), and exactly 144 lights (3 per ball, 16 balls per
floor, 3 floors), for every model of `rand()` and every entry RNG
state. -/
theorem PopulateWorld_counts (next : Nat → Nat × Nat) (s : Nat) :
    (PopulateWorld next s).materials.length = 72 ∧
    (PopulateWorld next s).materials.map Material.ty =
      [MaterialType.BT_Lambert, MaterialType.BT_Faceted]
      ++ List.replicate 10 MaterialType.BT_Lambert
      ++ List.replicate 10 MaterialType.BT_Phong
      ++ List.replicate 10 MaterialType.BT_Metallic
      ++ List.replicate 10 MaterialType.BT_Velvet
      ++ List.replicate 10 MaterialType.BT_Flakes
      ++ List.replicate 10 MaterialType.BT_Stan
      ++ List.replicate 10 MaterialType.BT_Checker ∧
    (PopulateWorld next s).worldObjects.length = 351 ∧
    (PopulateWorld next s).worldObjects.map Instance.mesh =
      (List.replicate 3 (MeshType.MT_Plane :: (List.replicate 16 MeshType.MT_Sphere
        ++ List.replicate 100 MeshType.MT_Box))).flatten ∧
    (PopulateWorld next s).lights.length = 144 := by
  refine ⟨genMaterials_length next 0, genMaterials_types next 0, ?_, ?_, ?_⟩
  · simp only [PopulateWorld]
    rw [flatten_length_const _ 117 (by
      intro l hl
      rw [List.mem_map] at hl
      obtain ⟨pair, hpair, rfl⟩ := hl
      obtain ⟨s', rfl⟩ := mrep_mem _ _ _ hpair
      exact genFloor_fst_length _ _ _)]
    rw [List.length_map, mrep_length]
    rfl
  · simp only [PopulateWorld]
    rw [List.map_flatten, List.map_map]
    have hmm := mrep_map_const SceneParam_Floors
      (genFloor next ((genMaterials next 0).1.length))
      (List.map Instance.mesh ∘ Prod.fst)
      (MeshType.MT_Plane :: (List.replicate 16 MeshType.MT_Sphere
        ++ List.replicate 100 MeshType.MT_Box))
      (fun s' => genFloor_fst_meshes next _ s') ((genMaterials next 0).2)
    rw [hmm]
    rfl
  · simp only [PopulateWorld]
    rw [flatten_length_const _ 48 (by
      intro l hl
      rw [List.mem_map] at hl
      obtain ⟨pair, hpair, rfl⟩ := hl
      obtain ⟨s', rfl⟩ := mrep_mem _ _ _ hpair
      exact genFloor_snd_length _ _ _)]
    rw [List.length_map, mrep_length]
    rfl

/-- C8: `PopulateWorld` is deterministic across runs.  Because it executes
`srand(0)` before drawing anything, its result is independent of the RNG
hidden state it is entered with: for any (deterministic) `rand()`
transition function, two executions from arbitrary prior states produce
identical materials, world-object and light vectors. -/
theorem PopulateWorld_deterministic (next : Nat → Nat × Nat) (s1 s2 : Nat) :
    PopulateWorld next s1 = PopulateWorld next s2 := rfl

/-- C10: every instance appended by `PopulateWorld` carries a valid
material index: ground planes use material 0, glitter balls material 1,
and every dancing box a material in `[2, m_materials.size())`, so no box
references the two hard-coded materials and no index is out of bounds. -/
theorem PopulateWorld_material_indexes (next : Nat → Nat × Nat) (s : Nat) :
    (PopulateWorld next s).materials.length = 72 ∧
    ∀ inst ∈ (PopulateWorld next s).worldObjects,
      inst.material < (PopulateWorld next s).materials.length ∧
      (inst.mesh = MeshType.MT_Plane → inst.material = 0) ∧
      (inst.mesh = MeshType.MT_Sphere → inst.material = 1) ∧
      (inst.mesh = MeshType.MT_Box → 2 ≤ inst.material) := by
  have hmats : (PopulateWorld next s).materials.length = 72 := genMaterials_length next 0
  refine ⟨hmats, fun inst hinst => ?_⟩
  rw [hmats]
  rcases PopulateWorld_instance_mem next s hinst with rfl | ⟨s', rfl⟩ | ⟨s', rfl⟩
  · decide
  · have hmesh : (((genBallAndLights next) s').1).1.mesh = MeshType.MT_Sphere := rfl
    have hmat : (((genBallAndLights next) s').1).1.material = 1 := rfl
    rw [hmesh, hmat]
    decide
  · have hmesh : ((genBox next 72) s').1.mesh = MeshType.MT_Box := rfl
    have hmat : ((genBox next 72) s').1.material =
        (rand next ((RandomPosXZ next ((RandomSize next s').2)).2)).1 % (72 - 2) + 2 := rfl
    rw [hmesh, hmat]
    refine ⟨by omega, by simp, by simp, fun _ => by omega⟩

/-- Closed witness for `PopulateWorld_material_indexes`: the ground plane
of the first floor, under the RNG model `next = fun n => (n, n + 1)`. -/
theorem PopulateWorld_material_indexes_witness :
    groundInstance ∈ (PopulateWorld (fun n => (n, n + 1)) 0).worldObjects ∧
    (groundInstance.material < (PopulateWorld (fun n => (n, n + 1)) 0).materials.length ∧
     (groundInstance.mesh = MeshType.MT_Plane → groundInstance.material = 0) ∧
     (groundInstance.mesh = MeshType.MT_Sphere → groundInstance.material = 1) ∧
     (groundInstance.mesh = MeshType.MT_Box → 2 ≤ groundInstance.material)) :=
  ⟨by decide,
   (PopulateWorld_material_indexes (fun n => (n, n + 1)) 0).2 groundInstance (by decide)⟩

end WorkGraphs

namespace ThreadedRendering

/-! Embedding of `examples/threaded_rendering/threaded_rendering.cpp`
(`ThreadedRendering::RenderCubeFace` and `ThreadedRendering::Render`).
A command list's recorded contents for one frame are a list of commands;
the six per-face command lists are `m_FaceCommandLists[0..5]` and the
composite list is `m_CommandList`. -/

/-- Commands recorded into a command list (per-frame), as issued by
`RenderCubeFace` and the composite pass of `Render`. -/
inductive Cmd
  | openList
  | clearDepthStencil (face : Nat)
  | clearColor (face : Nat)
  | prepareLights
  | disableAutomaticBarriers
  | setResourceStatesForFramebuffer (face : Nat)
  | commitBarriers
  | renderCompositeView (face : Nat)
  | enableAutomaticBarriers
  | blitFace (face : Nat)
  | closeList
deriving Repr, DecidableEq

/-- `ThreadedRendering::RenderCubeFace(face)`: the exact command sequence
recorded into `m_FaceCommandLists[face]`. -/
def RenderCubeFace (face : Nat) : List Cmd :=
  [Cmd.openList,
   Cmd.clearDepthStencil face,
   Cmd.clearColor face,
   Cmd.prepareLights,
   Cmd.disableAutomaticBarriers,
   Cmd.setResourceStatesForFramebuffer face,
   Cmd.commitBarriers,
   Cmd.renderCompositeView face,
   Cmd.enableAutomaticBarriers,
   Cmd.closeList]

/-- The per-frame contents of the six face command lists, as a map from
face index to recorded commands (empty before any face is recorded this
frame). -/
def FaceLists : Type := Nat → List Cmd

/-- No face recorded yet. -/
def emptyFaceLists : FaceLists := fun _ => []

/-- Record face `f`: `RenderCubeFace(f)` appends its commands into the
dedicated list `m_FaceCommandLists[f]` and touches no other list. -/
def recordFace (st : FaceLists) (f : Nat) : FaceLists :=
  fun i => if i = f then st i ++ RenderCubeFace f else st i

/-- Run `RenderCubeFace` for the faces of `order`, in that order (the
sequential mode uses `order = [0, 1, 2, 3, 4, 5]`; in the threaded mode
`order` is the schedule in which the executor completes the six emplaced
tasks, an arbitrary permutation — each task touches only its own dedicated
command list, so any interleaving acts like some sequential order). -/
def runFaces (order : List Nat) (st : FaceLists) : FaceLists :=
  order.foldl recordFace st

/-- The composite command list recorded by `Render` after the face loop:
one blit per face in layout order, between `open()` and `close()`. -/
def compositeCommandList : List Cmd :=
  [Cmd.openList] ++ ((List.range 6).map Cmd.blitFace) ++ [Cmd.closeList]

/-- The argument of `executeCommandLists` at the end of `Render`: the six
face command lists in face order followed by the composite command
list — the same fixed array in both modes. -/
def submittedLists (st : FaceLists) : List (List Cmd) :=
  [st 0, st 1, st 2, st 3, st 4, st 5, compositeCommandList]

/-- `ThreadedRendering::Render`, abstracted over the threading mode: the
per-face lists after recording and the sequence submitted to
`executeCommandLists`.  When `m_UseThreads` is false the faces run in
order `0..5`; when it is true the executor completes the six tasks in
some schedule `order`. -/
def Render (useThreads : Bool) (order : List Nat) : List (List Cmd) :=
  let faceOrder := if useThreads then order else List.range 6
  submittedLists (runFaces faceOrder emptyFaceLists)


theorem runFaces_eq (order : List Nat) (st : FaceLists) (i : Nat) (hnd : order.Nodup) :
    runFaces order st i = st i ++ (if i ∈ order then RenderCubeFace i else []) := by
  induction order generalizing st with
  | nil => simp [runFaces]
  | cons a t ih =>
      rw [List.nodup_cons] at hnd
      show runFaces t (recordFace st a) i = _
      rw [ih (recordFace st a) hnd.2]
      by_cases hia : i = a
      · subst hia
        simp [recordFace, hnd.1]
      · simp [recordFace, hia]

/-- C3: cubemap-face rendering is a pure fan-out whose result does not
depend on the threading mode.  For any schedule `order` in which the
executor completes the six per-face tasks (any permutation of `0..5`;
the sequential mode runs them in order `0..5`): each face is recorded
exactly once, each face's commands land in its own dedicated command
list, the submitted sequence is identical in both modes, and it is the
six face lists in face order `0..5` followed by the composite list. -/
theorem Render_threading_equivalence (order : List Nat)
    (h : order.Perm (List.range 6)) :
    (∀ i, i < 6 → order.count i = 1) ∧
    (∀ i, i < 6 → runFaces order emptyFaceLists i = RenderCubeFace i) ∧
    Render true order = Render false order ∧
    Render false order = ((List.range 6).map RenderCubeFace) ++ [compositeCommandList] := by
  have hnd : order.Nodup := h.nodup_iff.mpr (List.nodup_range 6)
  have hthr : ∀ i, i < 6 → runFaces order emptyFaceLists i = RenderCubeFace i := by
    intro i hi
    rw [runFaces_eq order emptyFaceLists i hnd]
    simp [emptyFaceLists, h.mem_iff, List.mem_range, hi]
  have hseq : ∀ i, i < 6 → runFaces (List.range 6) emptyFaceLists i = RenderCubeFace i := by
    intro i hi
    rw [runFaces_eq (List.range 6) emptyFaceLists i (List.nodup_range 6)]
    simp [emptyFaceLists, List.mem_range, hi]
  have hsub : ∀ (st : FaceLists), (∀ i, i < 6 → st i = RenderCubeFace i) →
      submittedLists st = ((List.range 6).map RenderCubeFace) ++ [compositeCommandList] := by
    intro st hst
    simp only [submittedLists]
    rw [hst 0 (by omega), hst 1 (by omega), hst 2 (by omega), hst 3 (by omega),
      hst 4 (by omega), hst 5 (by omega)]
    rfl
  refine ⟨?_, hthr, ?_, ?_⟩
  · intro i hi
    rw [h.count_eq]
    interval_cases i <;> rfl
  · show submittedLists (runFaces order emptyFaceLists)
        = submittedLists (runFaces (List.range 6) emptyFaceLists)
    rw [hsub _ hthr, hsub _ hseq]
  · exact hsub _ hseq

/-- Closed witness for `Render_threading_equivalence`, at the schedule
`[5, 0, 4, 1, 3, 2]`. -/
theorem Render_threading_equivalence_witness :
    ([5, 0, 4, 1, 3, 2] : List Nat).Perm (List.range 6) ∧
    ((∀ i, i < 6 → ([5, 0, 4, 1, 3, 2] : List Nat).count i = 1) ∧
     (∀ i, i < 6 → runFaces [5, 0, 4, 1, 3, 2] emptyFaceLists i = RenderCubeFace i) ∧
     Render true [5, 0, 4, 1, 3, 2] = Render false [5, 0, 4, 1, 3, 2] ∧
     Render false [5, 0, 4, 1, 3, 2]
       = ((List.range 6).map RenderCubeFace) ++ [compositeCommandList]) :=
  ⟨by decide, Render_threading_equivalence [5, 0, 4, 1, 3, 2] (by decide)⟩

end ThreadedRendering

namespace RtParticles

/-! Embedding of `examples/rt_particles/rt_particles.cpp`
(`SampleApp::BuildTLAS`).  Transforms are float data and are omitted; the
claims concern which descriptors are emitted, their masks, BLAS references
and `instanceID` numbering. -/

/-- `INSTANCE_MASK_OPAQUE` of `rt_particles_cb.h`. -/
def INSTANCE_MASK_OPAQUE : Nat := 1

/-- `INSTANCE_MASK_PARTICLE_GEOMETRY` of `rt_particles_cb.h`. -/
def INSTANCE_MASK_PARTICLE_GEOMETRY : Nat := 2

/-- `INSTANCE_MASK_INTERSECTION_PARTICLE` of `rt_particles_cb.h`. -/
def INSTANCE_MASK_INTERSECTION_PARTICLE : Nat := 4

/-- The bottom-level acceleration structure referenced by an instance
descriptor: a scene mesh's BLAS (`instance->GetMesh()->accelStruct`) or
the shared particle intersection BLAS (`m_ParticleIntersectionBLAS`). -/
inductive Blas
  | sceneMesh (meshId : Nat)
  | particleIntersection
deriving Repr, DecidableEq

/-- A scene-graph mesh instance, as consumed by `BuildTLAS`: the identity
of its mesh and its `GetInstanceIndex()` value. -/
structure SceneMeshInstance where
  meshId : Nat
  instanceIndex : Nat
deriving Repr, DecidableEq

/-- `ParticleEntity` (the field `BuildTLAS` branches on; the float fields
`position`/`radius` only shape the omitted transform). -/
structure ParticleEntity where
  active : Bool
deriving Repr, DecidableEq

/-- `nvrhi::rt::InstanceDesc` (the fields `BuildTLAS` sets besides the
omitted transform). -/
structure InstanceDesc where
  bottomLevelAS : Blas
  instanceMask : Nat
  instanceID : Nat
deriving Repr, DecidableEq

/-- The first loop of `BuildTLAS`: one descriptor per scene mesh instance,
with the particle-geometry mask for the particle mesh and the opaque mask
otherwise, and `instanceID = instance->GetInstanceIndex()`. -/
def sceneInstanceDescs (particleMeshId : Nat) (insts : List SceneMeshInstance) :
    List InstanceDesc :=
  insts.map fun inst =>
    { bottomLevelAS := Blas.sceneMesh inst.meshId
      instanceMask := if inst.meshId = particleMeshId then INSTANCE_MASK_PARTICLE_GEOMETRY
        else INSTANCE_MASK_OPAQUE
      instanceID := inst.instanceIndex }

/-- The second loop of `BuildTLAS`: inactive particles are skipped; each
active particle yields one intersection instance with
`instanceID = particleIndex`, and `particleIndex` increments only on
active particles. -/
def particleInstanceDescs (ps : List ParticleEntity) (particleIndex : Nat) :
    List InstanceDesc :=
  match ps with
  | [] => []
  | p :: rest =>
      if p.active then
        { bottomLevelAS := Blas.particleIntersection
          instanceMask := INSTANCE_MASK_INTERSECTION_PARTICLE
          instanceID := particleIndex } :: particleInstanceDescs rest (particleIndex + 1)
      else
        particleInstanceDescs rest particleIndex

/-- `SampleApp::BuildTLAS`: the descriptor vector passed (whole) to
`buildTopLevelAccelStruct` — scene instances first, then the intersection
instances of the active particles with `particleIndex` starting at 0. -/
def BuildTLAS (particleMeshId : Nat) (sceneInstances : List SceneMeshInstance)
    (particles : List ParticleEntity) : List InstanceDesc :=
  sceneInstanceDescs particleMeshId sceneInstances ++ particleInstanceDescs particles 0

theorem particleInstanceDescs_ids (ps : List ParticleEntity) (i : Nat) :
    (particleInstanceDescs ps i).map InstanceDesc.instanceID =
      (List.range (ps.filter ParticleEntity.active).length).map (· + i) := by
  induction ps generalizing i with
  | nil => rfl
  | cons p rest ih =>
      by_cases hp : p.active
      · have hfl : (List.filter ParticleEntity.active (p :: rest)).length
            = (List.filter ParticleEntity.active rest).length + 1 := by
          simp [List.filter_cons, hp]
        have hd : particleInstanceDescs (p :: rest) i =
            ⟨Blas.particleIntersection, INSTANCE_MASK_INTERSECTION_PARTICLE, i⟩
              :: particleInstanceDescs rest (i + 1) := by
          simp [particleInstanceDescs, hp]
        rw [hd, hfl, List.map_cons, ih (i + 1), List.range_succ_eq_map, List.map_cons,
          List.map_map]
        rw [show 0 + i = i by omega]
        congr 1
        apply List.map_congr_left
        intro a _
        simp only [Function.comp_apply]
        omega
      · have hfl : List.filter ParticleEntity.active (p :: rest)
            = List.filter ParticleEntity.active rest := by
          simp [List.filter_cons, hp]
        have hd : particleInstanceDescs (p :: rest) i = particleInstanceDescs rest i := by
          simp [particleInstanceDescs, hp]
        rw [hd, hfl, ih i]

theorem particleInstanceDescs_length (ps : List ParticleEntity) (i : Nat) :
    (particleInstanceDescs ps i).length = (ps.filter ParticleEntity.active).length := by
  have h := congrArg List.length (particleInstanceDescs_ids ps i)
  simpa using h

theorem particleInstanceDescs_mem (ps : List ParticleEntity) (i : Nat) :
    ∀ d ∈ particleInstanceDescs ps i,
      d.bottomLevelAS = Blas.particleIntersection ∧
      d.instanceMask = INSTANCE_MASK_INTERSECTION_PARTICLE := by
  induction ps generalizing i with
  | nil => intro d hd; simp [particleInstanceDescs] at hd
  | cons p rest ih =>
      intro d hd
      by_cases hp : p.active
      · simp only [particleInstanceDescs, hp, if_true, List.mem_cons] at hd
        rcases hd with rfl | hd
        · exact ⟨rfl, rfl⟩
        · exact ih (i + 1) d hd
      · simp only [particleInstanceDescs, hp, if_false] at hd
        exact ih i d hd

/-- C5: every call to `BuildTLAS` rebuilds the TLAS from exactly one
descriptor per scene mesh instance (in scene order, with the instance's
own index as `instanceID`) plus exactly one intersection instance per
active particle; inactive particles contribute no descriptor, and the
intersection instances' `instanceID` values number the active particles
consecutively from 0 in particle-list order. -/
theorem BuildTLAS_spec (pm : Nat) (si : List SceneMeshInstance)
    (ps : List ParticleEntity) :
    (BuildTLAS pm si ps).length = si.length + (ps.filter ParticleEntity.active).length ∧
    ((BuildTLAS pm si ps).take si.length).map InstanceDesc.instanceID =
      si.map SceneMeshInstance.instanceIndex ∧
    ((BuildTLAS pm si ps).drop si.length).map InstanceDesc.instanceID =
      List.range ((ps.filter ParticleEntity.active).length) ∧
    ∀ d ∈ (BuildTLAS pm si ps).drop si.length,
      d.bottomLevelAS = Blas.particleIntersection ∧
      d.instanceMask = INSTANCE_MASK_INTERSECTION_PARTICLE := by
  have hlen : (sceneInstanceDescs pm si).length = si.length := List.length_map _ _
  have htake : (BuildTLAS pm si ps).take si.length = sceneInstanceDescs pm si := by
    rw [BuildTLAS, ← hlen, List.take_left]
  have hdrop : (BuildTLAS pm si ps).drop si.length = particleInstanceDescs ps 0 := by
    rw [BuildTLAS, ← hlen, List.drop_left]
  refine ⟨?_, ?_, ?_, ?_⟩
  · rw [BuildTLAS, List.length_append, hlen, particleInstanceDescs_length]
  · rw [htake, sceneInstanceDescs, List.map_map]
    rfl
  · rw [hdrop, particleInstanceDescs_ids]
    simp
  · rw [hdrop]
    exact particleInstanceDescs_mem ps 0

/-- Closed witness for `BuildTLAS_spec`: two scene instances and particles
`[inactive, active, inactive, active]`. -/
theorem BuildTLAS_spec_witness :
    (BuildTLAS 7 [⟨7, 0⟩, ⟨3, 1⟩] [⟨false⟩, ⟨true⟩, ⟨false⟩, ⟨true⟩]).length
        = ([⟨7, 0⟩, ⟨3, 1⟩] : List SceneMeshInstance).length
          + (([⟨false⟩, ⟨true⟩, ⟨false⟩, ⟨true⟩] : List ParticleEntity).filter
              ParticleEntity.active).length ∧
    ((BuildTLAS 7 [⟨7, 0⟩, ⟨3, 1⟩] [⟨false⟩, ⟨true⟩, ⟨false⟩, ⟨true⟩]).take 2).map
        InstanceDesc.instanceID
      = ([⟨7, 0⟩, ⟨3, 1⟩] : List SceneMeshInstance).map SceneMeshInstance.instanceIndex ∧
    ((BuildTLAS 7 [⟨7, 0⟩, ⟨3, 1⟩] [⟨false⟩, ⟨true⟩, ⟨false⟩, ⟨true⟩]).drop 2).map
        InstanceDesc.instanceID
      = List.range ((([⟨false⟩, ⟨true⟩, ⟨false⟩, ⟨true⟩] : List ParticleEntity).filter
          ParticleEntity.active).length) ∧
    ∀ d ∈ (BuildTLAS 7 [⟨7, 0⟩, ⟨3, 1⟩] [⟨false⟩, ⟨true⟩, ⟨false⟩, ⟨true⟩]).drop 2,
      d.bottomLevelAS = Blas.particleIntersection ∧
      d.instanceMask = INSTANCE_MASK_INTERSECTION_PARTICLE :=
  BuildTLAS_spec 7 [⟨7, 0⟩, ⟨3, 1⟩] [⟨false⟩, ⟨true⟩, ⟨false⟩, ⟨true⟩]

end RtParticles

namespace VariableShading

/-! Embedding of `examples/variable_shading/variable_shading.cpp`
(`VariableShading::Render`, shading-rate surface creation). -/

/-- `nvrhi::Format` (the members this example's surface creation uses). -/
inductive Format
  | R8_UINT
  | RGBA16_FLOAT
deriving Repr, DecidableEq

/-- `nvrhi::TextureDesc` (the fields set for the shading-rate surface). -/
structure TextureDesc where
  width : Nat
  height : Nat
  isRenderTarget : Bool
  useClearValue : Bool
  sampleCount : Nat
  keepInitialState : Bool
  arraySize : Nat
  isUAV : Bool
  isShadingRateSurface : Bool
  format : Format
deriving Repr, DecidableEq

/-- One component of `surfaceDimensions`:
`(fbinfo.{width,height} + m_vrsTileSize - 1) / m_vrsTileSize` in unsigned
integer arithmetic. -/
def shadingRateSurfaceDim (x t : Nat) : Nat := (x + t - 1) / t

/-- The `nvrhi::TextureDesc` filled in `VariableShading::Render` for the
shading-rate surface, for framebuffer size `w × h` and queried tile size
`t`. -/
def shadingRateSurfaceDesc (w h t : Nat) : TextureDesc :=
  { width := shadingRateSurfaceDim w t
    height := shadingRateSurfaceDim h t
    isRenderTarget := false
    useClearValue := false
    sampleCount := 1
    keepInitialState := true
    arraySize := 1
    isUAV := true
    isShadingRateSurface := true
    format := Format.R8_UINT }

/-- `(x + t - 1) / t` is the ceiling of `x / t`: it is the least `d` with
`x ≤ t * d`. -/
theorem shadingRateSurfaceDim_is_ceil (x t : Nat) (ht : 0 < t) :
    x ≤ t * shadingRateSurfaceDim x t ∧
    ∀ d, x ≤ t * d → shadingRateSurfaceDim x t ≤ d := by
  constructor
  · have h1 := Nat.div_add_mod (x + t - 1) t
    have h2 : (x + t - 1) % t < t := Nat.mod_lt _ ht
    unfold shadingRateSurfaceDim
    omega
  · intro d hd
    unfold shadingRateSurfaceDim
    rw [← Nat.lt_succ_iff, Nat.div_lt_iff_lt_mul ht]
    simp only [Nat.succ_eq_add_one]
    have h3 : (d + 1) * t = d * t + t := by ring
    have h4 : t * d = d * t := by ring
    omega

/-- C6: the shading-rate surface is created with dimensions exactly
`⌈w / t⌉ × ⌈h / t⌉`, computed by the integer expression `(x + t - 1) / t`
in each dimension, and with format `R8_UINT`, for every framebuffer size
and every queried tile size `t > 0`.  (Being the ceiling is stated as:
the dimension is the least `d` with `x ≤ t * d`.) -/
theorem shadingRateSurface_spec (w h t : Nat) (ht : 0 < t) :
    (shadingRateSurfaceDesc w h t).width = (w + t - 1) / t ∧
    (shadingRateSurfaceDesc w h t).height = (h + t - 1) / t ∧
    (shadingRateSurfaceDesc w h t).format = Format.R8_UINT ∧
    (w ≤ t * (shadingRateSurfaceDesc w h t).width ∧
      ∀ d, w ≤ t * d → (shadingRateSurfaceDesc w h t).width ≤ d) ∧
    (h ≤ t * (shadingRateSurfaceDesc w h t).height ∧
      ∀ d, h ≤ t * d → (shadingRateSurfaceDesc w h t).height ≤ d) :=
  ⟨rfl, rfl, rfl, shadingRateSurfaceDim_is_ceil w t ht,
    shadingRateSurfaceDim_is_ceil h t ht⟩

/-- Closed witness for `shadingRateSurface_spec`: a 1920 × 1080
framebuffer with tile size 16. -/
theorem shadingRateSurface_spec_witness :
    0 < 16 ∧
    ((shadingRateSurfaceDesc 1920 1080 16).width = (1920 + 16 - 1) / 16 ∧
     (shadingRateSurfaceDesc 1920 1080 16).height = (1080 + 16 - 1) / 16 ∧
     (shadingRateSurfaceDesc 1920 1080 16).format = Format.R8_UINT ∧
     (1920 ≤ 16 * (shadingRateSurfaceDesc 1920 1080 16).width ∧
       ∀ d, 1920 ≤ 16 * d → (shadingRateSurfaceDesc 1920 1080 16).width ≤ d) ∧
     (1080 ≤ 16 * (shadingRateSurfaceDesc 1920 1080 16).height ∧
       ∀ d, 1080 ≤ 16 * d → (shadingRateSurfaceDesc 1920 1080 16).height ≤ d)) :=
  ⟨by decide, shadingRateSurface_spec 1920 1080 16 (by decide)⟩

end VariableShading

namespace FeatureDemo

/-! Embedding of the temporal anti-aliasing feedback loop of
`feature_demo/FeatureDemo.cpp` (`FeatureDemo::RenderScene`): the flag
`m_PreviousViewsValid` starts `false` (member initializer; it is also
reset to `false` by `SceneLoaded` and `CreateRenderPasses`, i.e. before
any frame of a trace considered here), guards `RenderMotionVectors`, is
passed to `TemporalResolve` as the history-valid argument, and is set
after the anti-aliasing branch. -/

/-- `enum class AntiAliasingMode` of `FeatureDemo.cpp`. -/
inductive AntiAliasingMode
  | NONE
  | TEMPORAL
  | MSAA_2X
  | MSAA_4X
  | MSAA_8X
deriving Repr, DecidableEq

/-- What one `RenderScene` call does with the temporal-AA passes:
whether it invoked `RenderMotionVectors`, and the `m_PreviousViewsValid`
value passed to `TemporalResolve` as its history-valid argument (`none`
when `TemporalResolve` is not called, i.e. in the non-temporal branch). -/
structure FrameActions where
  renderedMotionVectors : Bool
  temporalResolveHistory : Option Bool
deriving Repr, DecidableEq

/-- The temporal-AA portion of `FeatureDemo::RenderScene` for one frame:
given `m_PreviousViewsValid` before the frame and the UI anti-aliasing
mode, it returns the frame's actions and the flag after the frame.  In
the `TEMPORAL` branch `RenderMotionVectors` runs only if the flag is set,
`TemporalResolve` receives the flag, and the flag is set to `true`; in
every other branch neither pass runs and the flag is set to `false`. -/
def RenderSceneStep (prevValid : Bool) (mode : AntiAliasingMode) : FrameActions × Bool :=
  if mode = AntiAliasingMode.TEMPORAL then
    ({ renderedMotionVectors := prevValid, temporalResolveHistory := some prevValid }, true)
  else
    ({ renderedMotionVectors := false, temporalResolveHistory := none }, false)

/-- A trace of `RenderScene` frames from a given initial flag value: the
per-frame actions. -/
def runFrames (flag : Bool) : List AntiAliasingMode → List FrameActions
  | [] => []
  | m :: ms =>
      let r := RenderSceneStep flag m
      r.1 :: runFrames r.2 ms

/-- The value of `m_PreviousViewsValid` before frame `i` of a trace. -/
def flagBefore (flag : Bool) : List AntiAliasingMode → Nat → Bool
  | _, 0 => flag
  | [], _ + 1 => flag
  | m :: ms, i + 1 => flagBefore (RenderSceneStep flag m).2 ms i

theorem runFrames_length (flag : Bool) (modes : List AntiAliasingMode) :
    (runFrames flag modes).length = modes.length := by
  induction modes generalizing flag with
  | nil => rfl
  | cons m ms ih => simp [runFrames, ih]

theorem runFrames_get (flag : Bool) (modes : List AntiAliasingMode) (i : Nat)
    (hi : i < modes.length) (hi' : i < (runFrames flag modes).length) :
    (runFrames flag modes).get ⟨i, hi'⟩ =
      (RenderSceneStep (flagBefore flag modes i) (modes.get ⟨i, hi⟩)).1 := by
  induction modes generalizing flag i with
  | nil => exact absurd hi (by simp)
  | cons m ms ih =>
      cases i with
      | zero => rfl
      | succ i =>
          exact ih (RenderSceneStep flag m).2 i (by simpa using hi) (by
            simpa [runFrames] using hi')

theorem flagBefore_succ (flag : Bool) (modes : List AntiAliasingMode) (i : Nat)
    (hi : i < modes.length) :
    flagBefore flag modes (i + 1) =
      (RenderSceneStep (flagBefore flag modes i) (modes.get ⟨i, hi⟩)).2 := by
  induction modes generalizing flag i with
  | nil => exact absurd hi (by simp)
  | cons m ms ih =>
      cases i with
      | zero => simp [flagBefore]
      | succ i => exact ih (RenderSceneStep flag m).2 i (by simpa using hi)

/-- C7: in the temporal anti-aliasing feedback loop, starting from the
initial `m_PreviousViewsValid = false`: `RenderMotionVectors` is never
invoked on a frame where the flag is false; `TemporalResolve` receives the
pre-frame flag as its history-valid argument exactly on `TEMPORAL` frames;
the first frame has no history; and the flag after frame `i` (hence the
history validity of frame `i + 1`) is true exactly when frame `i` was
rendered with `AntiAliasingMode::TEMPORAL`. -/
theorem temporal_aa_feedback (modes : List AntiAliasingMode) :
    flagBefore false modes 0 = false ∧
    ∀ i (hi : i < modes.length),
      (((runFrames false modes).get
          ⟨i, by rw [runFrames_length]; exact hi⟩).renderedMotionVectors = true →
        flagBefore false modes i = true) ∧
      ((runFrames false modes).get
          ⟨i, by rw [runFrames_length]; exact hi⟩).temporalResolveHistory =
        (if modes.get ⟨i, hi⟩ = AntiAliasingMode.TEMPORAL
         then some (flagBefore false modes i) else none) ∧
      flagBefore false modes (i + 1) =
        decide (modes.get ⟨i, hi⟩ = AntiAliasingMode.TEMPORAL) := by
  refine ⟨by cases modes <;> rfl, fun i hi => ?_⟩
  rw [runFrames_get false modes i hi, flagBefore_succ false modes i hi]
  simp only [List.get_eq_getElem]
  by_cases hm : modes[i] = AntiAliasingMode.TEMPORAL
  · simp [RenderSceneStep, hm]
  · simp [RenderSceneStep, hm]

/-- Closed witness for `temporal_aa_feedback` (its inner quantifier has a
bound hypothesis): the trace `[TEMPORAL, TEMPORAL, NONE, TEMPORAL]` at
frame 1, which resolves with valid history. -/
theorem temporal_aa_feedback_witness :
    (1 < ([AntiAliasingMode.TEMPORAL, AntiAliasingMode.TEMPORAL, AntiAliasingMode.NONE,
        AntiAliasingMode.TEMPORAL] : List AntiAliasingMode).length) ∧
    ((((runFrames false [AntiAliasingMode.TEMPORAL, AntiAliasingMode.TEMPORAL,
          AntiAliasingMode.NONE, AntiAliasingMode.TEMPORAL]).get
            ⟨1, by decide⟩).renderedMotionVectors = true →
        flagBefore false [AntiAliasingMode.TEMPORAL, AntiAliasingMode.TEMPORAL,
          AntiAliasingMode.NONE, AntiAliasingMode.TEMPORAL] 1 = true) ∧
     ((runFrames false [AntiAliasingMode.TEMPORAL, AntiAliasingMode.TEMPORAL,
          AntiAliasingMode.NONE, AntiAliasingMode.TEMPORAL]).get
            ⟨1, by decide⟩).temporalResolveHistory =
        (if ([AntiAliasingMode.TEMPORAL, AntiAliasingMode.TEMPORAL, AntiAliasingMode.NONE,
              AntiAliasingMode.TEMPORAL] : List AntiAliasingMode).get ⟨1, by decide⟩
            = AntiAliasingMode.TEMPORAL
         then some (flagBefore false [AntiAliasingMode.TEMPORAL, AntiAliasingMode.TEMPORAL,
            AntiAliasingMode.NONE, AntiAliasingMode.TEMPORAL] 1) else none) ∧
     flagBefore false [AntiAliasingMode.TEMPORAL, AntiAliasingMode.TEMPORAL,
        AntiAliasingMode.NONE, AntiAliasingMode.TEMPORAL] 2 =
       decide (([AntiAliasingMode.TEMPORAL, AntiAliasingMode.TEMPORAL, AntiAliasingMode.NONE,
            AntiAliasingMode.TEMPORAL] : List AntiAliasingMode).get ⟨1, by decide⟩
          = AntiAliasingMode.TEMPORAL)) :=
  ⟨by decide,
   (temporal_aa_feedback [AntiAliasingMode.TEMPORAL, AntiAliasingMode.TEMPORAL,
      AntiAliasingMode.NONE, AntiAliasingMode.TEMPORAL]).2 1 (by decide)⟩

end FeatureDemo

namespace Examples

/-! Audit table for claim C4, transcribed from the sources under
`examples/` (one entry per example; `work_graphs` comprises
`scene.cpp` + `work_graphs_d3d12.cpp`).  The five predicates are crisp
code facts:

* `createsDevice`: calls `CreateWindowDeviceAndSwapChain` or
  `CreateHeadlessDevice` on a `DeviceManager`;
* `loadsShaders`: constructs a `ShaderFactory` and creates shaders or
  shader libraries through it;
* `loadsScene`: loads a scene file through the application framework
  (`ApplicationBase::BeginLoadingScene` / `LoadScene`);
* `createsPipeline`: creates a graphics/compute/ray-tracing/meshlet
  pipeline directly on the device, or initializes an engine render pass
  (`ForwardShadingPass`, `GBufferFillPass`, `DeferredLightingPass`) that
  builds its pipelines;
* `hasRenderCallback`: overrides the per-frame
  `IRenderPass::Render(nvrhi::IFramebuffer*)` callback driven by the
  device manager's message loop. -/

/-- One example's wiring facts. -/
structure ExampleWiring where
  name : String
  createsDevice : Bool
  loadsShaders : Bool
  loadsScene : Bool
  createsPipeline : Bool
  hasRenderCallback : Bool
deriving Repr, DecidableEq

/-- `examples/headless/headless.cpp`: `CreateHeadlessDevice`,
`ShaderFactory::CreateShader`, `createComputePipeline`; no scene of any
kind and no per-frame render callback (`RunTest` runs a single compute
dispatch and exits). -/
def headlessWiring : ExampleWiring :=
  { name := "headless", createsDevice := true, loadsShaders := true,
    loadsScene := false, createsPipeline := true, hasRenderCallback := false }

/-- The examples of the repository, one entry each, in directory order. -/
def examples : List ExampleWiring :=
  [ -- aftermath.cpp: window device, ShaderFactory, no scene load,
    -- createGraphicsPipeline, Render override.
    { name := "aftermath", createsDevice := true, loadsShaders := true,
      loadsScene := false, createsPipeline := true, hasRenderCallback := true },
    -- bindless_rendering.cpp: window device, ShaderFactory,
    -- BeginLoadingScene (Sponza), ray-tracing pipeline, Render override.
    { name := "bindless_rendering", createsDevice := true, loadsShaders := true,
      loadsScene := true, createsPipeline := true, hasRenderCallback := true },
    -- deferred_shading.cpp: window device, ShaderFactory, cube geometry
    -- built in code (no BeginLoadingScene), GBufferFillPass /
    -- DeferredLightingPass Init, Render override.
    { name := "deferred_shading", createsDevice := true, loadsShaders := true,
      loadsScene := false, createsPipeline := true, hasRenderCallback := true },
    headlessWiring,
    -- meshlets.cpp: window device, ShaderFactory, no scene load,
    -- createMeshletPipeline, Render override.
    { name := "meshlets", createsDevice := true, loadsShaders := true,
      loadsScene := false, createsPipeline := true, hasRenderCallback := true },
    { name := "rt_bindless", createsDevice := true, loadsShaders := true,
      loadsScene := true, createsPipeline := true, hasRenderCallback := true },
    { name := "rt_particles", createsDevice := true, loadsShaders := true,
      loadsScene := true, createsPipeline := true, hasRenderCallback := true },
    { name := "rt_reflections", createsDevice := true, loadsShaders := true,
      loadsScene := true, createsPipeline := true, hasRenderCallback := true },
    { name := "rt_shadows", createsDevice := true, loadsShaders := true,
      loadsScene := true, createsPipeline := true, hasRenderCallback := true },
    -- rt_triangle.cpp: window device, shader library, no scene load,
    -- ray-tracing pipeline, Render override.
    { name := "rt_triangle", createsDevice := true, loadsShaders := true,
      loadsScene := false, createsPipeline := true, hasRenderCallback := true },
    { name := "shader_specializations", createsDevice := true, loadsShaders := true,
      loadsScene := false, createsPipeline := true, hasRenderCallback := true },
    -- threaded_rendering.cpp: window device, ShaderFactory,
    -- BeginLoadingScene (Sponza), ForwardShadingPass Init, Render override.
    { name := "threaded_rendering", createsDevice := true, loadsShaders := true,
      loadsScene := true, createsPipeline := true, hasRenderCallback := true },
    { name := "variable_shading", createsDevice := true, loadsShaders := true,
      loadsScene := true, createsPipeline := true, hasRenderCallback := true },
    -- vertex_buffer.cpp: window device, ShaderFactory, static vertex
    -- array in code (no scene), createGraphicsPipeline, Render override.
    { name := "vertex_buffer", createsDevice := true, loadsShaders := true,
      loadsScene := false, createsPipeline := true, hasRenderCallback := true },
    -- work_graphs_d3d12.cpp + scene.cpp: window device, ShaderFactory,
    -- procedurally generated scene (no BeginLoadingScene), graphics and
    -- work-graph pipelines, Render override.
    { name := "work_graphs", createsDevice := true, loadsShaders := true,
      loadsScene := false, createsPipeline := true, hasRenderCallback := true } ]

/-- The claim's property for one example: code performing each of the
five steps exists. -/
def wiresAllFive (e : ExampleWiring) : Bool :=
  e.createsDevice && e.loadsShaders && e.loadsScene && e.createsPipeline
    && e.hasRenderCallback

/-- C4 (counterexample): it is not the case that every example wires up
all five steps — the headless example is in the table and lacks both
scene loading and a per-frame render callback. -/
theorem not_all_examples_wire_all_five :
    headlessWiring ∈ examples ∧ wiresAllFive headlessWiring = false := by
  constructor
  · simp [examples]
  · rfl

/-- C4 (amended): every example wires up device creation, shader loading
and pipeline creation; every example except `headless` registers a
per-frame render callback; and framework scene loading appears exactly in
the seven examples that render a glTF scene. -/
theorem examples_wiring_audit :
    ∀ e ∈ examples,
      e.createsDevice = true ∧ e.loadsShaders = true ∧ e.createsPipeline = true ∧
      (e.name ≠ "headless" → e.hasRenderCallback = true) ∧
      (e.loadsScene = true ↔ e.name ∈ ["bindless_rendering", "rt_particles",
        "rt_bindless", "rt_reflections", "rt_shadows", "threaded_rendering",
        "variable_shading"]) := by
  decide

/-- Closed witness for `examples_wiring_audit` at the `headless` entry. -/
theorem examples_wiring_audit_witness :
    headlessWiring ∈ examples ∧
    (headlessWiring.createsDevice = true ∧ headlessWiring.loadsShaders = true ∧
     headlessWiring.createsPipeline = true ∧
     (headlessWiring.name ≠ "headless" → headlessWiring.hasRenderCallback = true) ∧
     (headlessWiring.loadsScene = true ↔ headlessWiring.name ∈ ["bindless_rendering",
       "rt_particles", "rt_bindless", "rt_reflections", "rt_shadows",
       "threaded_rendering", "variable_shading"])) :=
  ⟨by decide, examples_wiring_audit headlessWiring (by decide)⟩

end Examples
